import Mathlib

/-!
Shallow embedding of the HappyLoop soda-machine API (src/app) in Lean 4.

The data model follows src/app/models.py (Product, Transaction), the purchase
workflow follows the body of the POST /interact/ handler in src/app/main.py,
and the intent parser follows src/app/services/ai_parser.py.  Python floats
are modelled exactly as rationals, Python ints as Lean integers, the SQL
store row sets as lists in enumeration order, and the calls into stdlib or
external services (the Gemini model, json.loads) as explicit function
parameters so that theorems quantify over every behaviour of those
collaborators.
-/

namespace SodaMachine

/-- Python str.lower applied character by character (ASCII case mapping, the
same mapping SQLite LIKE uses for its default case-insensitive comparison). -/
def lowerList (cs : List Char) : List Char := cs.map Char.toLower

/-- The whitespace characters removed by Python str.strip() (ASCII subset). -/
def isSpaceChar (c : Char) : Bool :=
  c == ' ' || c == '\t' || c == '\n' || c == '\r' || c == '\x0b' || c == '\x0c'

/-- Python str.strip(): drop leading and trailing whitespace, as applied to
intent.data.product_name in the /interact/ handler (main.py line 114). -/
def pyStrip (s : String) : String :=
  String.mk (((s.toList.dropWhile isSpaceChar).reverse.dropWhile isSpaceChar).reverse)

/-- Python substring test needle in hay (used by the fallback lookup in
main.py line 130). -/
def strContains (hay needle : List Char) : Bool :=
  hay.tails.any (fun t => needle.isPrefixOf t)

/-- Case-insensitive SQL LIKE pattern matching, the semantics of the
Product.name.ilike(name) filter in main.py line 124: in the pattern a percent
sign matches any sequence of characters, an underscore matches any single
character, and any other character matches itself case-insensitively. -/
def likeMatch : List Char → List Char → Bool
  | [], t => t.isEmpty
  | c :: p, t =>
    if c = '%' then t.tails.any (fun s => likeMatch p s)
    else
      match t with
      | [] => false
      | d :: t' => (c == '_' || c.toLower == d.toLower) && likeMatch p t'

/-- A Product row (src/app/models.py): id primary key, unique name, unit
price, stock level.  stock is an integer so that the non-negativity
invariant is a provable property rather than a typing artifact. -/
structure Product where
  id : Nat
  name : String
  price : ℚ
  stock : Int
deriving DecidableEq

/-- A Transaction row (src/app/models.py): id primary key, product foreign
key, purchased quantity, stored total price, creation timestamp. -/
structure Transaction where
  id : Nat
  product_id : Nat
  quantity : Int
  total_price : ℚ
  timestamp : Nat
deriving DecidableEq

/-- The persistent store: the product table and the transaction table, as
lists in store enumeration order. -/
structure Store where
  products : List Product
  transactions : List Transaction
deriving DecidableEq

/-- The typed content of the HTTPException raised on each failure path of the
/interact/ handler, keeping the data interpolated into each detail string. -/
inductive ApiError where
  | invalidQuantity : ApiError
  | productNotFound : String → ApiError
  | insufficientStock : Int → ApiError
  | intentNotUnderstood : String → ApiError
  | internalError : ApiError
deriving DecidableEq

/-- The HTTP status code attached to each HTTPException in main.py. -/
def ApiError.status : ApiError → Nat
  | .invalidQuantity => 400
  | .productNotFound _ => 404
  | .insufficientStock _ => 400
  | .intentNotUnderstood _ => 400
  | .internalError => 500

/-- The exact case-insensitive lookup, step a of product resolution:
select(Product).where(Product.name.ilike(name)).first() (main.py line 124). -/
def exactMatch (st : Store) (name : String) : Option Product :=
  st.products.find? (fun p => likeMatch name.toList p.name.toList)

/-- The fallback lookup, step b of product resolution (main.py lines
128-132): scan all product names in enumeration order, pick the first whose
lowercase form contains the lowercase requested name, and re-select the
product with exactly that name. -/
def substrFallback (st : Store) (name : String) : Option Product :=
  match (st.products.map (fun p => p.name)).find?
      (fun pn => strContains (lowerList pn.toList) (lowerList name.toList)) with
  | some pn => st.products.find? (fun p => p.name == pn)
  | none => none

/-- Product resolution as performed by the /interact/ handler: exact
case-insensitive match first, substring fallback second. -/
def resolveProduct (st : Store) (name : String) : Option Product :=
  match exactMatch st name with
  | some p => some p
  | none => substrFallback st name

/-- The purchase branch of the /interact/ handler (main.py lines 113-158):
strip the requested name, reject non-positive quantities, resolve the
product, check stock, then decrement stock and append one transaction row
whose total is price times quantity.  now and nextTxId stand for the
timestamp and the autoincremented transaction key the store would assign. -/
def doPurchase (st : Store) (now nextTxId : Nat) (rawName : String)
    (quantity : Int) : Except ApiError (Store × Product × Transaction) :=
  let name := pyStrip rawName
  if quantity ≤ 0 then .error .invalidQuantity
  else
    match resolveProduct st name with
    | none => .error (.productNotFound name)
    | some product =>
      if product.stock < quantity then .error (.insufficientStock product.stock)
      else
        let newProduct : Product := { product with stock := product.stock - quantity }
        let total : ℚ := product.price * (quantity : ℚ)
        let tx : Transaction :=
          { id := nextTxId, product_id := product.id, quantity := quantity,
            total_price := total, timestamp := now }
        .ok ({ products := st.products.map
                 (fun p => if p.id = product.id then newProduct else p),
               transactions := st.transactions ++ [tx] },
             newProduct, tx)

/-- The purchase intent schema of ai_parser.py: product name and quantity. -/
structure PurchaseIntent where
  product_name : String
  quantity : Int
deriving DecidableEq

/-- The unknown intent schema of ai_parser.py: the reason the intent could
not be determined. -/
structure UnknownIntent where
  reason : String
deriving DecidableEq

/-- The UserIntent schema of ai_parser.py: a type tag and optional data that
is either a purchase intent or an unknown intent. -/
structure UserIntent where
  type : String
  data : Option (PurchaseIntent ⊕ UnknownIntent)
deriving DecidableEq

/-- The /interact/ handler given the intent returned by the parser (main.py
lines 113-167): dispatch on the intent tag and the runtime type of its data,
run the purchase branch for a well-formed purchase intent, report an
unrecognised intent, and fall through to the generic internal error. -/
def interact (st : Store) (now nextTxId : Nat) (intent : UserIntent) :
    Store × Except ApiError (Product × Transaction) :=
  match intent.type, intent.data with
  | "purchase", some (.inl pi) =>
    match doPurchase st now nextTxId pi.product_name pi.quantity with
    | .ok (st', p, tx) => (st', .ok (p, tx))
    | .error e => (st, .error e)
  | "unknown", some (.inr ui) => (st, .error (.intentNotUnderstood ui.reason))
  | _, _ => (st, .error .internalError)

/-- The GET /products/ endpoint: read-only listing of the product table. -/
def list_products (st : Store) : Store × List Product := (st, st.products)

/-- The GET /transactions/ endpoint: read-only listing of the transactions. -/
def list_transactions (st : Store) : Store × List Transaction :=
  (st, st.transactions)

/-- The products seeded by the startup hook (main.py lines 37-41), with the
ids the autoincrementing key assigns on first insertion. -/
def cocaCola : Product := { id := 1, name := "Coca-Cola", price := 5/2, stock := 100 }

/-- Second seeded product. -/
def pepsi : Product := { id := 2, name := "Pepsi", price := 11/5, stock := 80 }

/-- Third seeded product. -/
def guarana : Product := { id := 3, name := "Guaraná", price := 2, stock := 120 }

/-- The store immediately after startup seeding: three products, no
transactions. -/
def seededStore : Store := { products := [cocaCola, pepsi, guarana], transactions := [] }

/-- A JSON value, the possible results of json.loads on the extracted
substring (numbers restricted to integers, the only numeric shape the
intent schemas accept). -/
inductive JVal where
  | null : JVal
  | bool : Bool → JVal
  | num : Int → JVal
  | str : String → JVal
  | arr : List JVal → JVal
  | obj : List (String × JVal) → JVal

/-- A Python exception as observed by the try/except dispatch of
parse_user_message: whether it is a pydantic ValidationError, its class
name, and its message. -/
structure PyExc where
  isValidationError : Bool
  clsName : String
  msg : String

/-- The external collaborators of parse_user_message, passed explicitly so
theorems quantify over every behaviour: the Gemini round-trip
model.generate_content(prompt).text, and json.loads.  Either call may end
in any exception. -/
structure GeminiEnv where
  generate : String → Except PyExc String
  jsonLoads : String → Except PyExc JVal

/-- The fixed instructional prompt of parse_user_message with the user
message interpolated at the end (ai_parser.py lines 65-87); braces of the
JSON examples written with their escape codes. -/
def buildPrompt (message : String) : String :=
  "\n            Você é o assistente de uma máquina de refrigerantes.\n" ++
  "            Interprete a frase do usuário e retorne APENAS um JSON.\n\n" ++
  "            Se for uma compra:\n" ++
  "            \x7b\n              \"type\": \"purchase\",\n" ++
  "              \"data\": \x7b\n                \"product_name\": \"Coca-Cola\",\n" ++
  "                \"quantity\": 3\n              \x7d\n            \x7d\n\n" ++
  "            Se a frase for ambígua ou incompleta:\n" ++
  "            \x7b\n              \"type\": \"unknown\",\n" ++
  "              \"data\": \x7b\n                \"reason\": \"Texto ambíguo ou incompleto\"\n" ++
  "              \x7d\n            \x7d\n\n" ++
  "            Frase: \"" ++ message ++ "\"\n            "

/-- Index of the first occurrence of a character in a list, if any. -/
def firstIdx (c : Char) : List Char → Option Nat
  | [] => none
  | d :: t => if d = c then some 0 else (firstIdx c t).map (· + 1)

/-- Index of the last occurrence of a character in a list, if any. -/
def lastIdx (c : Char) : List Char → Option Nat
  | [] => none
  | d :: t =>
    match lastIdx c t with
    | some j => some (j + 1)
    | none => if d = c then some 0 else none

/-- One attempt of the regex engine to match the pattern at the current
position: the text must start with an opening brace, and the greedy dot-all
body extends to the last closing brace anywhere after it. -/
def tryBraceMatchHere : List Char → Option (List Char)
  | [] => none
  | c :: rest =>
    if c = '{' then (lastIdx '}' rest).map (fun j => c :: rest.take (j + 1))
    else none

/-- re.search of the greedy dot-all brace pattern (ai_parser.py line 92):
try each start position from the left and return the first successful
greedy match. -/
def reSearchBraces : List Char → Option (List Char)
  | [] => none
  | c :: rest =>
    match tryBraceMatchHere (c :: rest) with
    | some m => some m
    | none => reSearchBraces rest

/-- The characterization the spec gives of the extraction step: the
substring running from the first opening brace of the whole response to its
last closing brace, when the latter comes after the former. -/
def firstToLastBrace (cs : List Char) : Option (List Char) :=
  match firstIdx '{' cs, lastIdx '}' cs with
  | some i, some j => if i < j then some ((cs.drop i).take (j - i + 1)) else none
  | _, _ => none

/-- The JSON-extraction step of parse_user_message (ai_parser.py lines
92-93): json.loads on the regex match when there is one, and the literal
empty dict otherwise. -/
def extractJson (jsonLoads : String → Except PyExc JVal) (text : String) :
    Except PyExc JVal :=
  match reSearchBraces text.toList with
  | some m => jsonLoads (String.mk m)
  | none => .ok (JVal.obj [])

/-- Lookup of a key in a decoded JSON object (first binding wins). -/
def lookupField (fields : List (String × JVal)) (k : String) : Option JVal :=
  (fields.find? (fun kv => kv.1 == k)).map (fun kv => kv.2)

/-- A pydantic ValidationError value carrying the given message. -/
def validationError (m : String) : PyExc :=
  { isValidationError := true, clsName := "ValidationError", msg := m }

/-- Validation of the PurchaseIntent schema declared in ai_parser.py: an
object with a string product_name and an integer quantity. -/
def validatePurchaseIntent : JVal → Except PyExc PurchaseIntent
  | .obj fs =>
    match lookupField fs "product_name", lookupField fs "quantity" with
    | some (.str n), some (.num q) => .ok { product_name := n, quantity := q }
    | _, _ => .error (validationError "campos de PurchaseIntent invalidos")
  | _ => .error (validationError "PurchaseIntent requer um objeto")

/-- Validation of the UnknownIntent schema declared in ai_parser.py: an
object with a string reason. -/
def validateUnknownIntent : JVal → Except PyExc UnknownIntent
  | .obj fs =>
    match lookupField fs "reason" with
    | some (.str r) => .ok { reason := r }
    | _ => .error (validationError "campo reason invalido")
  | _ => .error (validationError "UnknownIntent requer um objeto")

/-- Validation of the UserIntent schema declared in ai_parser.py, the
semantics of UserIntent(**parsed_json): a required string type field and a
required but nullable data field holding either intent shape, the union
tried in declaration order. -/
def validateUserIntent : JVal → Except PyExc UserIntent
  | .obj fs =>
    match lookupField fs "type" with
    | some (.str t) =>
      match lookupField fs "data" with
      | none => .error (validationError "campo data ausente")
      | some .null => .ok { type := t, data := none }
      | some d =>
        match validatePurchaseIntent d with
        | .ok pi => .ok { type := t, data := some (.inl pi) }
        | .error _ =>
          match validateUnknownIntent d with
          | .ok ui => .ok { type := t, data := some (.inr ui) }
          | .error _ =>
            .error (validationError "data nao corresponde a nenhuma forma")
    | _ => .error (validationError "campo type ausente ou invalido")
  | _ => .error (validationError "a resposta nao e um objeto JSON")

/-- The body of the try block of parse_user_message: call the model, extract
the brace-delimited JSON, validate it against the UserIntent schema; any
exception of any step aborts the body. -/
def parseAttempt (env : GeminiEnv) (message : String) : Except PyExc UserIntent :=
  match env.generate (buildPrompt message) with
  | .error e => .error e
  | .ok text =>
    match extractJson env.jsonLoads text with
    | .error e => .error e
    | .ok parsedJson => validateUserIntent parsedJson

/-- The reason string the except handlers of parse_user_message build for an
exception: the ValidationError handler and the catch-all Exception handler
(ai_parser.py lines 101-113). -/
def handlerReason (e : PyExc) : String :=
  if e.isValidationError then "Erro de validação: " ++ e.msg
  else "Erro com Gemini: " ++ e.clsName ++ ": " ++ e.msg

/-- parse_user_message (ai_parser.py lines 60-113): run the try body; on any
exception return the unknown intent carrying the reason string built by the matching handler. -/
def parse_user_message (env : GeminiEnv) (message : String) : UserIntent :=
  match parseAttempt env message with
  | .ok u => u
  | .error e => { type := "unknown", data := some (.inr { reason := handlerReason e }) }

/-- find? returns the distinguished element when it satisfies the predicate
and is the only member of the list doing so. -/
theorem find?_eq_some_of_unique {α : Type} (p : α → Bool) (l : List α) (a : α)
    (hmem : a ∈ l) (hpa : p a = true)
    (huniq : ∀ b ∈ l, p b = true → b = a) : l.find? p = some a := by
  induction l with
  | nil => cases hmem
  | cons x t ih =>
    cases hx : p x with
    | true =>
      have hxa : x = a := huniq x (List.mem_cons_self x t) hx
      subst hxa
      simp [List.find?, hx]
    | false =>
      have hat : a ∈ t := by
        rcases List.mem_cons.mp hmem with h | h
        · exfalso; rw [h, hx] at hpa; exact Bool.noConfusion hpa
        · exact h
      simp only [List.find?, hx]
      exact ih hat (fun b hb hpb => huniq b (List.mem_cons_of_mem _ hb) hpb)

/-- Any product returned by resolution is a row of the product table. -/
theorem resolveProduct_mem (st : Store) (n : String) (p : Product)
    (h : resolveProduct st n = some p) : p ∈ st.products := by
  unfold resolveProduct at h
  cases hx : exactMatch st n with
  | some q =>
    rw [hx] at h
    cases h
    exact List.mem_of_find?_eq_some hx
  | none =>
    rw [hx] at h
    unfold substrFallback at h
    cases hf : (st.products.map (fun p => p.name)).find?
        (fun pn => strContains (lowerList pn.toList) (lowerList n.toList)) with
    | some pn =>
      rw [hf] at h
      exact List.mem_of_find?_eq_some h
    | none => rw [hf] at h; cases h

/-- On a wildcard-free pattern, case-insensitive LIKE matching is exactly
equality of the lowercased character sequences. -/
theorem likeMatch_iff_of_no_wildcard (p : List Char)
    (h : ∀ c ∈ p, c ≠ '%' ∧ c ≠ '_') (t : List Char) :
    likeMatch p t = true ↔ lowerList p = lowerList t := by
  induction p generalizing t with
  | nil => cases t <;> simp [likeMatch, lowerList]
  | cons c p ih =>
    have hc := h c (List.mem_cons_self c p)
    have hrest : ∀ a ∈ p, a ≠ '%' ∧ a ≠ '_' :=
      fun a ha => h a (List.mem_cons_of_mem _ ha)
    cases t with
    | nil => simp [likeMatch, hc.1, lowerList]
    | cons d t =>
      simp only [likeMatch, if_neg hc.1, Bool.and_eq_true, Bool.or_eq_true,
        beq_iff_eq, lowerList, List.map_cons, List.cons.injEq, hc.2,
        false_or, ih hrest t]

/-- The purchase branch on a resolvable product with a positive quantity not
exceeding stock: the exact store produced by main.py lines 143-148. -/
theorem doPurchase_success_eq (st : Store) (now nextTxId : Nat)
    (rawName : String) (q : Int) (prod : Product)
    (hres : resolveProduct st (pyStrip rawName) = some prod)
    (hq : 0 < q) (hs : q ≤ prod.stock) :
    doPurchase st now nextTxId rawName q =
      .ok ({ products := st.products.map (fun p =>
               if p.id = prod.id then { prod with stock := prod.stock - q } else p),
             transactions := st.transactions ++
               [{ id := nextTxId, product_id := prod.id, quantity := q,
                  total_price := prod.price * (q : ℚ), timestamp := now }] },
           { prod with stock := prod.stock - q },
           { id := nextTxId, product_id := prod.id, quantity := q,
             total_price := prod.price * (q : ℚ), timestamp := now }) := by
  have h1 : ¬ q ≤ 0 := by omega
  have h2 : ¬ prod.stock < q := by omega
  simp only [doPurchase, if_neg h1, hres, if_neg h2]

/-- interact on a well-formed purchase intent runs the purchase branch. -/
theorem interact_purchase_eq (st : Store) (now nextTxId : Nat)
    (pi : PurchaseIntent) :
    interact st now nextTxId { type := "purchase", data := some (.inl pi) } =
      match doPurchase st now nextTxId pi.product_name pi.quantity with
      | .ok (st', p, tx) => (st', .ok (p, tx))
      | .error e => (st, .error e) := rfl

/-- A successful purchase ending in .ok keeps every stock non-negative when
every stock was non-negative before, because the stock check precedes the
decrement. -/
theorem doPurchase_ok_stock_nonneg (st : Store) (now nextTxId : Nat)
    (rawName : String) (q : Int) (st' : Store) (pr : Product) (tx : Transaction)
    (h : doPurchase st now nextTxId rawName q = .ok (st', pr, tx))
    (hinv : ∀ p ∈ st.products, 0 ≤ p.stock) :
    ∀ p ∈ st'.products, 0 ≤ p.stock := by
  by_cases h0 : q ≤ 0
  · simp [doPurchase, h0] at h
  · cases hres : resolveProduct st (pyStrip rawName) with
    | none => simp [doPurchase, h0, hres] at h
    | some prod =>
      by_cases hst : prod.stock < q
      · simp [doPurchase, h0, hres, hst] at h
      · rw [doPurchase_success_eq st now nextTxId rawName q prod hres (by omega)
          (by omega)] at h
        injection h with h
        obtain ⟨h1, h2⟩ := Prod.mk.injEq _ _ _ _ |>.mp h
        subst h1
        intro p hp
        rcases List.mem_map.mp hp with ⟨p0, hp0, rfl⟩
        by_cases hid : p0.id = prod.id
        · simp only [if_pos hid]
          show (0 : Int) ≤ prod.stock - q
          omega
        · simp only [if_neg hid]
          exact hinv p0 hp0

/-- Claim C1: for every product with stock s and price p and every positive
quantity q at most s, a successful purchase leaves the stock of that product at
s - q, appends exactly one transaction row carrying the product id, the
quantity and total_price = p * q, and alters no other product or
transaction row. -/
theorem claim1_successful_purchase (st : Store) (now nextTxId : Nat)
    (rawName : String) (q : Int) (prod : Product)
    (hres : resolveProduct st (pyStrip rawName) = some prod)
    (hq : 0 < q) (hs : q ≤ prod.stock) :
    interact st now nextTxId
        { type := "purchase",
          data := some (.inl { product_name := rawName, quantity := q }) } =
      ({ products := st.products.map (fun p =>
           if p.id = prod.id then { prod with stock := prod.stock - q } else p),
         transactions := st.transactions ++
           [{ id := nextTxId, product_id := prod.id, quantity := q,
              total_price := prod.price * (q : ℚ), timestamp := now }] },
       .ok ({ prod with stock := prod.stock - q },
            { id := nextTxId, product_id := prod.id, quantity := q,
              total_price := prod.price * (q : ℚ), timestamp := now })) ∧
    ∀ p ∈ st.products, p.id ≠ prod.id →
      p ∈ (interact st now nextTxId
        { type := "purchase",
          data := some (.inl { product_name := rawName, quantity := q }) }).1.products := by
  have hmain := doPurchase_success_eq st now nextTxId rawName q prod hres hq hs
  constructor
  · rw [interact_purchase_eq, hmain]
  · intro p hp hne
    rw [interact_purchase_eq, hmain]
    exact List.mem_map.mpr ⟨p, hp, by simp [hne]⟩

/-- Witness for claim C1: buying 3 units of Coca-Cola (requested with spare
whitespace and different casing) from the seeded store: stock 100 becomes
97 and one transaction with total 2.5 * 3 is appended. -/
theorem claim1_witness :
    interact seededStore 7 1
        { type := "purchase",
          data := some (.inl { product_name := "  coca-COLA  ", quantity := 3 }) } =
      ({ products := seededStore.products.map (fun p =>
           if p.id = cocaCola.id then { cocaCola with stock := cocaCola.stock - 3 } else p),
         transactions := seededStore.transactions ++
           [{ id := 1, product_id := cocaCola.id, quantity := 3,
              total_price := cocaCola.price * ((3 : Int) : ℚ), timestamp := 7 }] },
       .ok ({ cocaCola with stock := cocaCola.stock - 3 },
            { id := 1, product_id := cocaCola.id, quantity := 3,
              total_price := cocaCola.price * ((3 : Int) : ℚ), timestamp := 7 })) :=
  (claim1_successful_purchase seededStore 7 1 "  coca-COLA  " 3 cocaCola rfl
    (by decide) (by decide)).1

/-- Claim C2: for every resolved product and every quantity above its
current (non-negative) stock, the purchase fails with the insufficient-stock
error reporting the available stock, with HTTP status 400, and the store is
unchanged. -/
theorem claim2_insufficient_stock (st : Store) (now nextTxId : Nat)
    (rawName : String) (q : Int) (prod : Product)
    (hres : resolveProduct st (pyStrip rawName) = some prod)
    (hnn : 0 ≤ prod.stock) (hlt : prod.stock < q) :
    interact st now nextTxId
        { type := "purchase",
          data := some (.inl { product_name := rawName, quantity := q }) } =
      (st, .error (.insufficientStock prod.stock)) ∧
    (ApiError.insufficientStock prod.stock).status = 400 := by
  refine ⟨?_, rfl⟩
  rw [interact_purchase_eq]
  have h1 : ¬ q ≤ 0 := by omega
  have hd : doPurchase st now nextTxId rawName q =
      .error (.insufficientStock prod.stock) := by
    simp only [doPurchase, if_neg h1, hres, if_pos hlt]
  rw [hd]

/-- Witness for claim C2: asking for 101 Coca-Cola against stock 100 fails
with the insufficient-stock error carrying available = 100 and changes
nothing. -/
theorem claim2_witness :
    interact seededStore 0 1
        { type := "purchase",
          data := some (.inl { product_name := "Coca-Cola", quantity := 101 }) } =
      (seededStore, .error (.insufficientStock 100)) :=
  (claim2_insufficient_stock seededStore 0 1 "Coca-Cola" 101 cocaCola rfl
    (by decide) (by decide)).1

/-- Claim C3: for every non-positive quantity and every requested name,
existing or not, the purchase fails with the invalid-quantity error (HTTP
400) before any product resolution, and the store is unchanged. -/
theorem claim3_invalid_quantity (st : Store) (now nextTxId : Nat)
    (rawName : String) (q : Int) (hq : q ≤ 0) :
    interact st now nextTxId
        { type := "purchase",
          data := some (.inl { product_name := rawName, quantity := q }) } =
      (st, .error .invalidQuantity) ∧
    ApiError.invalidQuantity.status = 400 := by
  refine ⟨?_, rfl⟩
  rw [interact_purchase_eq]
  have hd : doPurchase st now nextTxId rawName q = .error .invalidQuantity := by
    simp only [doPurchase, if_pos hq]
  rw [hd]

/-- Witness for claim C3: quantity 0 on a name matching no product still
fails with the invalid-quantity error, not the not-found error. -/
theorem claim3_witness :
    interact seededStore 0 1
        { type := "purchase",
          data := some (.inl { product_name := "Sprite", quantity := 0 }) } =
      (seededStore, .error .invalidQuantity) :=
  (claim3_invalid_quantity seededStore 0 1 "Sprite" 0 (by decide)).1

/-- Claim C4: starting from any state with all stocks non-negative, the
/interact/ endpoint (every purchase, successful or failed, and every other
intent) leaves all stocks non-negative, and the read endpoints do not touch
the store at all. -/
theorem claim4_stock_invariant (st : Store) (now nextTxId : Nat)
    (intent : UserIntent) (hinv : ∀ p ∈ st.products, 0 ≤ p.stock) :
    (∀ p ∈ (interact st now nextTxId intent).1.products, 0 ≤ p.stock) ∧
    (list_products st).1 = st ∧ (list_transactions st).1 = st := by
  refine ⟨?_, rfl, rfl⟩
  unfold interact
  split
  · split
    · next st' p tx heq =>
      exact doPurchase_ok_stock_nonneg st now nextTxId _ _ st' p tx heq hinv
    · exact hinv
  · exact hinv
  · exact hinv

/-- Witness for claim C4: after a failed oversized purchase on the seeded
store, the Pepsi row still has non-negative stock. -/
theorem claim4_witness :
    (0 : Int) ≤ (Product.mk 2 "Pepsi" pepsi.price 80).stock :=
  (claim4_stock_invariant seededStore 3 1
      { type := "purchase",
        data := some (.inl { product_name := "Coca-Cola", quantity := 101 }) }
      (by decide)).1
    (Product.mk 2 "Pepsi" pepsi.price 80)
    (show Product.mk 2 "Pepsi" pepsi.price 80 ∈ seededStore.products from by
      simp [seededStore, pepsi])

/-- Claim C9: when the parser hands /interact/ an intent whose type is
purchase but whose data is not a purchase-intent value, or whose type is
neither purchase nor unknown, the endpoint answers with the generic internal
error (HTTP 500) and the store is unchanged. -/
theorem claim9_internal_error (st : Store) (now nextTxId : Nat)
    (intent : UserIntent)
    (h : (intent.type = "purchase" ∧ ∀ pi, intent.data ≠ some (.inl pi)) ∨
         (intent.type ≠ "purchase" ∧ intent.type ≠ "unknown")) :
    interact st now nextTxId intent = (st, .error .internalError) ∧
    ApiError.internalError.status = 500 := by
  refine ⟨?_, rfl⟩
  unfold interact
  split
  · next pi heq1 heq2 =>
    exfalso
    rcases h with ⟨ht, hd⟩ | ⟨ht1, ht2⟩
    · exact hd pi heq2
    · exact ht1 heq1
  · next ui heq1 heq2 =>
    exfalso
    rcases h with ⟨ht, hd⟩ | ⟨ht1, ht2⟩
    · simp [ht] at heq1
    · exact ht2 heq1
  · rfl

/-- Witness for claim C9: a purchase-tagged intent with absent data yields
the internal error and leaves the seeded store unchanged. -/
theorem claim9_witness :
    interact seededStore 0 1 { type := "purchase", data := none } =
      (seededStore, .error .internalError) :=
  (claim9_internal_error seededStore 0 1 { type := "purchase", data := none }
    (Or.inl ⟨rfl, fun _ h => Option.noConfusion h⟩)).1

/-- Counterexample to claim C5 as stated: inserting internal whitespace into
the stored name Pepsi gives a whitespace variant of a stored name on which
resolution fails entirely, so whitespace-insensitivity does not hold. -/
theorem claim5_counterexample :
    "Pep si" = String.mk ("Pep".toList ++ ' ' :: "si".toList) ∧
    "Pepsi" = String.mk ("Pep".toList ++ "si".toList) ∧
    "Pepsi" ∈ seededStore.products.map Product.name ∧
    resolveProduct seededStore (pyStrip "Pep si") = none ∧
    interact seededStore 0 1
        { type := "purchase",
          data := some (.inl { product_name := "Pep si", quantity := 1 }) } =
      (seededStore, .error (.productNotFound "Pep si")) := by
  refine ⟨rfl, rfl, by decide, rfl, rfl⟩

/-- Claim C5 as amended: for a stored product whose name the stripped
requested name matches case-insensitively, provided the stripped request
carries no SQL LIKE wildcard and no other stored product name is a
case-insensitive duplicate, exact-match resolution returns exactly that
product; so case-insensitivity and insensitivity to surrounding whitespace
hold, while internal whitespace variation does not. -/
theorem claim5_exact_match_amended (st : Store) (r : String) (prod : Product)
    (hmem : prod ∈ st.products)
    (hnowild : ∀ c ∈ (pyStrip r).toList, c ≠ '%' ∧ c ≠ '_')
    (hlow : lowerList (pyStrip r).toList = lowerList prod.name.toList)
    (huniq : ∀ p' ∈ st.products,
      lowerList p'.name.toList = lowerList prod.name.toList → p' = prod) :
    exactMatch st (pyStrip r) = some prod ∧
    resolveProduct st (pyStrip r) = some prod := by
  have hfind : exactMatch st (pyStrip r) = some prod := by
    unfold exactMatch
    apply find?_eq_some_of_unique
    · exact hmem
    · show likeMatch (pyStrip r).toList prod.name.toList = true
      rw [likeMatch_iff_of_no_wildcard _ hnowild]
      exact hlow
    · intro b hb hpb
      have hpb' : lowerList (pyStrip r).toList = lowerList b.name.toList := by
        rw [← likeMatch_iff_of_no_wildcard _ hnowild]
        exact hpb
      exact huniq b hb (hpb'.symm.trans hlow)
  refine ⟨hfind, ?_⟩
  unfold resolveProduct
  rw [hfind]

/-- Witness for the amended claim C5: PEPSI in capitals with surrounding
whitespace resolves exactly to the Pepsi row of the seeded store. -/
theorem claim5_witness :
    exactMatch seededStore (pyStrip "  PEPSI ") = some pepsi ∧
    resolveProduct seededStore (pyStrip "  PEPSI ") = some pepsi :=
  claim5_exact_match_amended seededStore "  PEPSI " pepsi
    (by simp [seededStore])
    (by decide)
    (by decide)
    (by
      intro p' hp'
      simp only [seededStore, List.mem_cons, List.not_mem_nil, or_false] at hp'
      rcases hp' with h | h | h <;> subst h <;> intro hl
      · exact absurd hl (by decide)
      · rfl
      · exact absurd hl (by decide))

/-- Claim C6: when the exact case-insensitive match finds nothing, fallback
resolution returns the first product in enumeration order whose lowercase
name contains the lowercase requested name, and when no stored name contains
it the purchase fails with the product-not-found error (HTTP 404). -/
theorem claim6_substring_fallback (st : Store) (now nextTxId : Nat)
    (rawName : String) (q : Int) (hq : 0 < q)
    (hnames : (st.products.map (fun p => p.name)).Nodup)
    (hexact : exactMatch st (pyStrip rawName) = none) :
    resolveProduct st (pyStrip rawName) =
      st.products.find? (fun p =>
        strContains (lowerList p.name.toList) (lowerList (pyStrip rawName).toList)) ∧
    ((st.products.find? (fun p =>
        strContains (lowerList p.name.toList) (lowerList (pyStrip rawName).toList)) = none) →
      interact st now nextTxId
          { type := "purchase",
            data := some (.inl { product_name := rawName, quantity := q }) } =
        (st, .error (.productNotFound (pyStrip rawName))) ∧
      (ApiError.productNotFound (pyStrip rawName)).status = 404) := by
  have hres : resolveProduct st (pyStrip rawName) =
      st.products.find? (fun p =>
        strContains (lowerList p.name.toList) (lowerList (pyStrip rawName).toList)) := by
    unfold resolveProduct
    rw [hexact]
    unfold substrFallback
    rw [List.find?_map]
    cases hF : st.products.find? (fun p =>
        strContains (lowerList p.name.toList) (lowerList (pyStrip rawName).toList)) with
    | none =>
      have : st.products.find? ((fun pn =>
          strContains (lowerList pn.toList) (lowerList (pyStrip rawName).toList)) ∘
          (fun p => p.name)) = none := hF
      rw [this]
      rfl
    | some p0 =>
      have : st.products.find? ((fun pn =>
          strContains (lowerList pn.toList) (lowerList (pyStrip rawName).toList)) ∘
          (fun p => p.name)) = some p0 := hF
      rw [this]
      show st.products.find? (fun p => p.name == p0.name) = some p0
      apply find?_eq_some_of_unique
      · exact List.mem_of_find?_eq_some hF
      · exact beq_self_eq_true p0.name
      · intro b hb hbeq
        have hname : b.name = p0.name := by
          have := of_decide_eq_true (by exact hbeq)
          exact this
        exact List.inj_on_of_nodup_map hnames hb
          (List.mem_of_find?_eq_some hF) hname
  refine ⟨hres, ?_⟩
  intro hnone
  refine ⟨?_, rfl⟩
  rw [interact_purchase_eq]
  have h1 : ¬ q ≤ 0 := by omega
  have hd : doPurchase st now nextTxId rawName q =
      .error (.productNotFound (pyStrip rawName)) := by
    simp only [doPurchase, if_neg h1, hres.trans hnone]
  rw [hd]

/-- Witness for claim C6: the request cola matches no product exactly but is
a substring of Coca-Cola, the first stored name containing it, so fallback
resolution returns the Coca-Cola row. -/
theorem claim6_witness :
    resolveProduct seededStore (pyStrip "cola") = some cocaCola :=
  (claim6_substring_fallback seededStore 0 1 "cola" 2 (by decide) (by decide)
    rfl).1.trans rfl

/-- Claim C10: a requested name consisting of the SQL LIKE wildcard percent
resolves, already at the exact-match step, to the first stored product, a
product whose name is not case-insensitively equal to the request: exact
matching is LIKE-pattern matching, not string equality. -/
theorem claim10_wildcard_exact_match :
    exactMatch seededStore (pyStrip "%") = some cocaCola ∧
    resolveProduct seededStore (pyStrip "%") = some cocaCola ∧
    lowerList (pyStrip "%").toList ≠ lowerList cocaCola.name.toList := by
  refine ⟨rfl, rfl, by decide⟩

/-- A list without a closing brace yields no first-to-last extraction. -/
theorem firstToLastBrace_of_no_close (cs : List Char)
    (h : lastIdx '}' cs = none) : firstToLastBrace cs = none := by
  unfold firstToLastBrace
  rw [h]
  cases firstIdx '{' cs <;> rfl

/-- Claim C8 part one as a standalone equivalence: the leftmost greedy
regex search for the dot-all brace pattern selects exactly the substring
from the first opening brace to the last closing brace of the whole text. -/
theorem reSearchBraces_eq_firstToLast (cs : List Char) :
    reSearchBraces cs = firstToLastBrace cs := by
  induction cs with
  | nil => rfl
  | cons c rest ih =>
    by_cases hc : c = '{'
    · subst hc
      cases hl : lastIdx '}' rest with
      | some j =>
        simp [reSearchBraces, tryBraceMatchHere, firstToLastBrace, firstIdx,
          lastIdx, hl]
      | none =>
        simp [reSearchBraces, tryBraceMatchHere, firstToLastBrace, firstIdx,
          lastIdx, hl, ih, firstToLastBrace_of_no_close rest hl]
    · cases hf : firstIdx '{' rest with
      | none =>
        cases hl : lastIdx '}' rest with
        | some j =>
          simp [reSearchBraces, tryBraceMatchHere, firstToLastBrace, firstIdx,
            lastIdx, hc, hf, hl, ih]
        | none =>
          simp [reSearchBraces, tryBraceMatchHere, firstToLastBrace, firstIdx,
            lastIdx, hc, hf, hl, ih]
      | some i =>
        cases hl : lastIdx '}' rest with
        | some j =>
          simp only [reSearchBraces, tryBraceMatchHere, if_neg hc, ih]
          simp [firstToLastBrace, firstIdx, lastIdx, if_neg hc, hf, hl,
            Nat.succ_lt_succ_iff, List.drop_succ_cons, Nat.succ_sub_succ]
        | none =>
          by_cases hcc : c = '}'
          · simp [reSearchBraces, tryBraceMatchHere, firstToLastBrace, firstIdx,
              lastIdx, hc, hcc, hf, hl, ih]
          · simp [reSearchBraces, tryBraceMatchHere, firstToLastBrace, firstIdx,
              lastIdx, hc, hcc, hf, hl, ih]

/-- Claim C8: the JSON-extraction step takes the substring from the first
opening brace to the last closing brace of the whole model response (greedy
dot-all match), and when no such brace-delimited substring exists it yields
the empty parse, the literal empty object. -/
theorem claim8_brace_extraction :
    (∀ cs : List Char, reSearchBraces cs = firstToLastBrace cs) ∧
    (∀ (jl : String → Except PyExc JVal) (text : String),
      reSearchBraces text.toList = none →
      extractJson jl text = .ok (JVal.obj [])) := by
  refine ⟨reSearchBraces_eq_firstToLast, ?_⟩
  intro jl text h
  unfold extractJson
  rw [h]

/-- Dummy json.loads used to witness claim C8 concretely. -/
def nullLoads : String → Except PyExc JVal := fun _ => .ok JVal.null

/-- Witness for claim C8: a response without braces produces the empty
parse. -/
theorem claim8_witness :
    extractJson nullLoads "sem chaves aqui" = .ok (JVal.obj []) :=
  claim8_brace_extraction.2 nullLoads "sem chaves aqui" (by decide)

/-- Claim C7: parse_user_message is total and absorbs every failure.  For
every behaviour of the external service and of json.loads: a successful try
body is returned as is; any exception of the body produces the unknown
intent carrying the descriptive reason built by the handler; and each failure mode the
spec lists (service exception, absence of a brace-delimited substring,
JSON-decode failure, schema-validation failure) does make the body fail. -/
theorem claim7_parse_total (env : GeminiEnv) (msg : String) :
    (∀ u, parseAttempt env msg = .ok u → parse_user_message env msg = u) ∧
    (∀ e, parseAttempt env msg = .error e →
      parse_user_message env msg =
        { type := "unknown", data := some (.inr { reason := handlerReason e }) }) ∧
    (∀ e, env.generate (buildPrompt msg) = .error e →
      parseAttempt env msg = .error e) ∧
    (∀ text, env.generate (buildPrompt msg) = .ok text →
      reSearchBraces text.toList = none →
      parseAttempt env msg =
        .error (validationError "campo type ausente ou invalido")) ∧
    (∀ text m e, env.generate (buildPrompt msg) = .ok text →
      reSearchBraces text.toList = some m →
      env.jsonLoads (String.mk m) = .error e →
      parseAttempt env msg = .error e) ∧
    (∀ text v e, env.generate (buildPrompt msg) = .ok text →
      extractJson env.jsonLoads text = .ok v →
      validateUserIntent v = .error e →
      parseAttempt env msg = .error e) := by
  refine ⟨?_, ?_, ?_, ?_, ?_, ?_⟩
  · intro u h
    unfold parse_user_message
    rw [h]
  · intro e h
    unfold parse_user_message
    rw [h]
  · intro e h
    simp only [parseAttempt, h]
  · intro text h1 h2
    simp only [parseAttempt, h1, extractJson, h2]
    rfl
  · intro text m e h1 h2 h3
    simp only [parseAttempt, h1, extractJson, h2, h3]
  · intro text v e h1 h2 h3
    simp only [parseAttempt, h1, h2, h3]

/-- A concrete environment in which the language-service call itself raises
(for example a missing API key or an exhausted quota). -/
def quotaFailEnv : GeminiEnv :=
  { generate := fun _ =>
      .error { isValidationError := false, clsName := "ResourceExhausted",
               msg := "quota excedida" },
    jsonLoads := fun _ => .ok JVal.null }

/-- Witness for claim C7: under a failing service call the parser returns
the unknown intent with the reason built by the catch-all handler, raising nothing. -/
theorem claim7_witness :
    parse_user_message quotaFailEnv "Quero 3 Coca-Cola" =
      { type := "unknown",
        data := some (.inr
          { reason := "Erro com Gemini: ResourceExhausted: quota excedida" }) } :=
  (claim7_parse_total quotaFailEnv "Quero 3 Coca-Cola").2.1
    { isValidationError := false, clsName := "ResourceExhausted",
      msg := "quota excedida" }
    rfl

example : likeMatch "coca-cola".toList "Coca-Cola".toList = true := by decide

example : likeMatch "%".toList "Coca-Cola".toList = true := by decide

example : exactMatch seededStore "%" = some cocaCola := rfl

example : resolveProduct seededStore "pep" = some pepsi := rfl

example : resolveProduct seededStore (pyStrip "  PEPSI ") = some pepsi := rfl

example : resolveProduct seededStore (pyStrip "Pep si") = none := by decide

example : doPurchase seededStore 0 1 "coca-cola" 3 =
    .ok ({ products := [{ cocaCola with stock := 97 }, pepsi, guarana],
           transactions := [{ id := 1, product_id := 1, quantity := 3,
                              total_price := cocaCola.price * ((3 : Int) : ℚ),
                              timestamp := 0 }] },
         { cocaCola with stock := 97 },
         { id := 1, product_id := 1, quantity := 3,
           total_price := cocaCola.price * ((3 : Int) : ℚ),
           timestamp := 0 }) := rfl

end SodaMachine
